import Mathlib

/-!
Verification of the retrieval-augmented query pipeline described by the
repository specification, together with a model of the endpoint
environment-variable dispatch cell of the sample notebook
`kendra_retriever_samples/genai-kendra-langchain.ipynb`.

The repository itself contains only a tutorial notebook; the pipeline
(Retriever, Prompt Composer, Answer Generator, turn state machine,
retry wrapper, conversation history) is the standalone core its
specification describes.  Those components are modelled here from the
specification's words; the notebook's environment-variable dispatch is
translated from the notebook source.
-/

namespace KendraRag

/-- Modelled from the spec: an Excerpt is a text snippet with a source
document identifier, a relevance score and origin metadata (a URI),
produced by the Retriever and immutable once returned. -/
structure Excerpt where
  text : String
  sourceId : String
  score : ℚ
  uri : String
deriving DecidableEq

/-- Modelled from the spec: a Query is a text string plus an optional
conversation history of prior query/answer pairs. -/
structure Query where
  text : String
  history : List (String × String)
deriving DecidableEq

/-- Modelled from the spec: the error taxonomy of section 7. -/
inductive PipelineError where
  | retrievalUnavailable
  | promptTooLarge
  | backendTimeout
  | backendRejected
deriving DecidableEq

/-- Modelled from the spec: the stage of the pipeline an error originates
from, surfaced to the caller together with the error. -/
inductive Stage where
  | retrieving
  | composing
  | generating
deriving DecidableEq

/-- Modelled from the spec: every failure is reported with the originating
stage identified. -/
structure StageError where
  stage : Stage
  err : PipelineError
deriving DecidableEq

/-- Modelled from the spec: what the backend search index does on one call:
either it cannot be reached, or it returns a stably ordered list of
scored excerpts. -/
inductive BackendResponse where
  | unreachable
  | results (excerpts : List Excerpt)
deriving DecidableEq

/-- Comparison used to rank excerpts: descending relevance score. -/
def scoreGE (a b : Excerpt) : Bool := decide (b.score ≤ a.score)

/-- Stable ranking of the backend's excerpts by descending score
(merge sort is stable, so ties keep the backend's input order). -/
def rankExcerpts (es : List Excerpt) : List Excerpt := es.mergeSort scoreGE

/-- Modelled from the spec (4.1): `retrieve` returns at most `topK`
excerpts ordered by descending relevance score, ties broken by stable
input order from the backend; it fails with `RetrievalUnavailable` when
the backend index cannot be reached, and an empty result is a valid
zero-length sequence, not an error. -/
def retrieve (resp : BackendResponse) (topK : Nat) : Except PipelineError (List Excerpt) :=
  match resp with
  | .unreachable => .error .retrievalUnavailable
  | .results es => .ok ((rankExcerpts es).take topK)

/-- Modelled from the spec (4.2): the fixed instruction template the
composer prepends to every prompt. -/
def instructionTemplate : String :=
  "Answer the question using only the document excerpts below.\n"

/-- Modelled from the spec (4.2): each excerpt is tagged with its source. -/
def renderExcerpt (e : Excerpt) : String :=
  "[" ++ e.sourceId ++ "] " ++ e.text ++ "\n"

/-- Modelled from the spec (4.2): the deterministic concatenation of the
fixed instruction template, the excerpts in the order received, and the
query. -/
def promptText (q : Query) (es : List Excerpt) : String :=
  instructionTemplate ++ String.join (es.map renderExcerpt) ++ q.text

/-- Modelled from the spec: a Prompt is the composed string; the excerpts
that went into it are carried alongside so the Answer can cite them. -/
structure Prompt where
  text : String
  usedExcerpts : List Excerpt
deriving DecidableEq

/-- Drop whole excerpts from the lowest-relevance end (the tail of the
list, which is ordered by descending relevance) until the prompt fits.
`fitGo q m es n` keeps the longest of the initial segments of `es` with
at most `n` elements whose prompt text fits in `m`, and keeps none when
no nonempty one fits. -/
def fitGo (q : Query) (maxSize : Nat) (es : List Excerpt) : Nat → List Excerpt
  | 0 => []
  | n + 1 =>
    if (promptText q (es.take (n + 1))).length ≤ maxSize then es.take (n + 1)
    else fitGo q maxSize es n

/-- Modelled from the spec (4.2): excerpts are dropped from the
lowest-relevance end until the prompt fits; never truncates mid-excerpt. -/
def fitExcerpts (q : Query) (maxSize : Nat) (es : List Excerpt) : List Excerpt :=
  fitGo q maxSize es es.length

/-- Modelled from the spec (4.2): `compose` fails with `PromptTooLarge`
only if even the query plus instruction template alone exceeds
`maxSize`; otherwise it returns the prompt over the retained excerpts. -/
def compose (q : Query) (es : List Excerpt) (maxSize : Nat) : Except PipelineError Prompt :=
  if maxSize < (promptText q []).length then .error .promptTooLarge
  else .ok { text := promptText q (fitExcerpts q maxSize es)
             usedExcerpts := fitExcerpts q maxSize es }

/-- Modelled from the spec: an Answer is generated text plus the excerpts
used to produce it (for citation) and the identifier of the backend that
produced it. -/
structure Answer where
  text : String
  excerpts : List Excerpt
  backendId : String
deriving DecidableEq

/-- Modelled from the spec (4.3): what the model backend does on one call:
a timeout (recoverable), a rejection (fatal for the turn), or the
generated text. -/
inductive GenOutcome where
  | timeout
  | rejected
  | success (text : String)
deriving DecidableEq

/-- Modelled from the spec (4.3): `generate` sends the composed prompt to
the backend; it fails with `BackendTimeout` or `BackendRejected`, and on
success attaches the prompt's excerpts to the Answer. -/
def generate (p : Prompt) (backendId : String) (out : GenOutcome) : Except PipelineError Answer :=
  match out with
  | .timeout => .error .backendTimeout
  | .rejected => .error .backendRejected
  | .success t => .ok { text := t, excerpts := p.usedExcerpts, backendId := backendId }

/-- Modelled from the spec (4.3): the states of one conversational turn. -/
inductive TurnState where
  | idle
  | retrieving
  | composing
  | generating
  | done
  | failed
deriving DecidableEq

/-- Modelled from the spec (4.3): the transition relation of the turn
state machine.  The success path is Idle, Retrieving, Composing,
Generating, Done; the terminal Failed state is reachable from each
non-Idle, non-terminal state on an unrecoverable error; there are no
other transitions. -/
inductive Step : TurnState → TurnState → Prop where
  | start : Step .idle .retrieving
  | retrieved : Step .retrieving .composing
  | composed : Step .composing .generating
  | generated : Step .generating .done
  | retrieveFailed : Step .retrieving .failed
  | composeFailed : Step .composing .failed
  | generateFailed : Step .generating .failed

/-- Modelled from the spec: everything one conversational turn consumes:
the query, the retrieval and composition budgets, and what the two
external backends do when called. -/
structure TurnInput where
  query : Query
  topK : Nat
  maxSize : Nat
  backend : BackendResponse
  genResult : GenOutcome
  backendId : String

/-- Modelled from the spec (sections 2 and 4.3): one conversational turn,
run in strict sequence: retrieve, compose, generate.  Returns the result
(with the originating stage identified on failure) together with the
sequence of states the turn passed through. -/
def runTurn (inp : TurnInput) : Except StageError Answer × List TurnState :=
  match retrieve inp.backend inp.topK with
  | .error e => (.error ⟨.retrieving, e⟩, [.idle, .retrieving, .failed])
  | .ok es =>
    match compose inp.query es inp.maxSize with
    | .error e => (.error ⟨.composing, e⟩, [.idle, .retrieving, .composing, .failed])
    | .ok p =>
      match generate p inp.backendId inp.genResult with
      | .error e =>
        (.error ⟨.generating, e⟩, [.idle, .retrieving, .composing, .generating, .failed])
      | .ok a => (.ok a, [.idle, .retrieving, .composing, .generating, .done])

/-- Whether a pipeline result is a success. -/
def exceptIsOk {ε α : Type} : Except ε α → Bool
  | .ok _ => true
  | .error _ => false

/-- Replace the generation outcome of a turn input: the model backend may
behave differently on each retry attempt. -/
def setGen (inp : TurnInput) (o : GenOutcome) : TurnInput := { inp with genResult := o }

/-- Modelled from the spec (7): the exponential backoff delay before
retry attempt `k`. -/
def backoffDelay (baseDelay k : Nat) : Nat := baseDelay * 2 ^ k

/-- Caller-level retry loop: `outcomes k` is what the model backend does
on attempt `k`; `fuel` bounds the retries left.  Returns the final
result and the total number of attempts made.  Only `BackendTimeout` is
retried; every other error terminates the turn at once. -/
def retryGo (inp : TurnInput) (outcomes : Nat → GenOutcome) :
    Nat → Nat → Except StageError Answer × Nat
  | 0, k => ((runTurn (setGen inp (outcomes k))).1, k + 1)
  | fuel + 1, k =>
    match (runTurn (setGen inp (outcomes k))).1 with
    | .ok a => (.ok a, k + 1)
    | .error e =>
      if e.err = PipelineError.backendTimeout then retryGo inp outcomes fuel (k + 1)
      else (.error e, k + 1)

/-- Modelled from the spec (7): the caller-level retry wrapper with a
caller-defined limit on the number of retries. -/
def retryWithBackoff (inp : TurnInput) (outcomes : Nat → GenOutcome) (limit : Nat) :
    Except StageError Answer × Nat :=
  retryGo inp outcomes limit 0

/-- Modelled from the spec: a conversation is its append-only history of
completed query/answer pairs. -/
structure Conversation where
  history : List (Query × Answer)
deriving DecidableEq

/-- Modelled from the spec (9): append produces a new view; the existing
entries are never removed or modified. -/
def appendTurn (c : Conversation) (q : Query) (a : Answer) : Conversation :=
  { history := c.history ++ [(q, a)] }

/-- Modelled from the spec: run one turn against a conversation: a
completed turn appends exactly one query/answer pair; a failed turn
leaves the history unchanged. -/
def stepConversation (c : Conversation) (inp : TurnInput) : Conversation :=
  match (runTurn inp).1 with
  | .ok a => appendTurn c inp.query a
  | .error _ => c

/-- Modelled from the spec: run a sequence of turns in order. -/
def runConversation (c : Conversation) (inps : List TurnInput) : Conversation :=
  inps.foldl stepConversation c

/-! ## The notebook's endpoint environment-variable dispatch

Translated from the cell of
`kendra_retriever_samples/genai-kendra-langchain.ipynb` that sets the
SageMaker endpoint environment variables from `model_id`. -/

/-- Whether `pat` occurs as a contiguous run inside the second list. -/
def hasSub (pat : List Char) : List Char → Bool
  | [] => pat.isEmpty
  | c :: cs => pat.isPrefixOf (c :: cs) || hasSub pat cs

/-- The notebook matches `model_id` with `re.search(pat, model_id)` where
both patterns consist only of literal characters (letters, digits and
hyphens), so the search is exactly a substring test. -/
def reSearch (pat s : String) : Bool := hasSub pat.toList s.toList

/-- The default model identifier of the notebook's Model ID prompt. -/
def defaultModelId : String := "huggingface-text2text-flan-t5-xl"

/-- The notebook computes
`model_id = str(input("Model ID:") or "huggingface-text2text-flan-t5-xl")`:
the empty user input is falsy, so it yields the default. -/
def chooseModelId (userInput : String) : String :=
  if userInput = "" then defaultModelId else userInput

/-- The two endpoint environment variables the dispatch cell may set. -/
structure EndpointEnv where
  flanXlEndpoint : Option String
  flanXxlEndpoint : Option String
deriving DecidableEq

/-- The environment before the dispatch cell runs: neither variable set. -/
def emptyEnv : EndpointEnv := { flanXlEndpoint := none, flanXxlEndpoint := none }

/-- What the dispatch cell prints when it sets no endpoint variable. -/
inductive DispatchMsg where
  | noMsg
  | usingExternalKey
  | warnEndpointUnset
deriving DecidableEq

/-- The dispatch cell: an if/elif chain on `re.search` of the two
patterns, then on the presence of an external API key. -/
def setEndpointEnv (modelId endpointName : String) (openaiKeySet anthropicKeySet : Bool)
    (env : EndpointEnv) : EndpointEnv × DispatchMsg :=
  if reSearch "flan-t5-xl" modelId then
    ({ env with flanXlEndpoint := some endpointName }, .noMsg)
  else if reSearch "flan-t5-xxl" modelId then
    ({ env with flanXxlEndpoint := some endpointName }, .noMsg)
  else if openaiKeySet || anthropicKeySet then (env, .usingExternalKey)
  else (env, .warnEndpointUnset)

/-! ## Helper lemmas about the composer -/

theorem fitGo_isPre (q : Query) (m : Nat) (es : List Excerpt) :
    ∀ n, fitGo q m es n <+: es
  | 0 => ⟨es, rfl⟩
  | n + 1 => by
    rw [fitGo]
    split
    · exact ⟨es.drop (n + 1), List.take_append_drop _ _⟩
    · exact fitGo_isPre q m es n

theorem fitGo_fits (q : Query) (m : Nat) (es : List Excerpt)
    (hbase : (promptText q []).length ≤ m) :
    ∀ n, (promptText q (fitGo q m es n)).length ≤ m
  | 0 => by rw [fitGo]; exact hbase
  | n + 1 => by
    rw [fitGo]
    split
    · assumption
    · exact fitGo_fits q m es hbase n

theorem fitExcerpts_of_fits (q : Query) (m : Nat) (es : List Excerpt)
    (h : (promptText q es).length ≤ m) : fitExcerpts q m es = es := by
  unfold fitExcerpts
  cases es with
  | nil => rfl
  | cons e rest =>
    show fitGo q m (e :: rest) (rest.length + 1) = e :: rest
    rw [fitGo]
    have ht : (e :: rest).take (rest.length + 1) = e :: rest := by simp
    rw [ht]
    exact if_pos h

/-! ## Concrete fixtures used by the worked examples -/

/-- A concrete query for the worked examples. -/
def wQ : Query := { text := "What is the return policy?", history := [] }

/-- Highest-scored concrete excerpt (score 0.9). -/
def wE1 : Excerpt :=
  { text := "Returns are accepted within 30 days.", sourceId := "doc-1", score := 9/10, uri := "u1" }

/-- Middle concrete excerpt (score 0.7). -/
def wE2 : Excerpt :=
  { text := "Refunds go to the original payment method.", sourceId := "doc-2", score := 7/10,
    uri := "u2" }

/-- Lowest-scored concrete excerpt (score 0.5). -/
def wE3 : Excerpt :=
  { text := "Items must be unused.", sourceId := "doc-3", score := 5/10, uri := "u3" }

/-- The backend's three concrete excerpts, scores 0.9, 0.7, 0.5. -/
def wES : List Excerpt := [wE1, wE2, wE3]

/-- The prompt composed over all three concrete excerpts. -/
def wPrompt : Prompt := { text := promptText wQ wES, usedExcerpts := wES }

/-! ## Claims about the Prompt Composer -/

/-- Claim C1: for every query, excerpt sequence and size budget, a Prompt
returned by `compose` has size at most `maxSize`; whole excerpts are
removed only from the lowest-relevance end (the retained excerpts are an
initial segment of the input, which is ordered by descending relevance),
the prompt text is exactly the rendering of the retained excerpts (so no
excerpt is ever truncated in the middle), and nothing is removed when
the full concatenation already fits. -/
theorem compose_fits_budget (q : Query) (es : List Excerpt) (m : Nat) (p : Prompt)
    (h : compose q es m = Except.ok p) :
    p.text.length ≤ m ∧ p.usedExcerpts <+: es ∧ p.text = promptText q p.usedExcerpts ∧
      ((promptText q es).length ≤ m → p.usedExcerpts = es) := by
  unfold compose at h
  by_cases hc : m < (promptText q []).length
  · rw [if_pos hc] at h
    exact Except.noConfusion h
  · rw [if_neg hc] at h
    injection h with h
    subst h
    refine ⟨?_, ?_, rfl, ?_⟩
    · exact fitGo_fits q m es (Nat.not_lt.mp hc) es.length
    · exact fitGo_isPre q m es es.length
    · intro hfull
      exact fitExcerpts_of_fits q m es hfull

set_option maxRecDepth 4000 in
/-- Claim C1, witnessed at a concrete input where `compose` succeeds. -/
theorem compose_fits_budget_witness :
    wPrompt.text.length ≤ 1000 ∧ wPrompt.usedExcerpts <+: wES ∧
      wPrompt.text = promptText wQ wPrompt.usedExcerpts ∧
      ((promptText wQ wES).length ≤ 1000 → wPrompt.usedExcerpts = wES) :=
  compose_fits_budget wQ wES 1000 wPrompt (by rfl)

/-- Claim C3: `compose` fails with `PromptTooLarge` exactly when the
query plus the fixed instruction template alone already exceed
`maxSize`; `PromptTooLarge` is the only error it ever returns, and on
that failure no Prompt is returned (the failure is atomic: the result is
either one Prompt or one error). -/
theorem compose_error_iff (q : Query) (es : List Excerpt) (m : Nat) :
    (compose q es m = Except.error PipelineError.promptTooLarge ↔
        m < (promptText q []).length) ∧
      (exceptIsOk (compose q es m) = true ↔ (promptText q []).length ≤ m) ∧
      (∀ e, compose q es m = Except.error e →
        e = PipelineError.promptTooLarge ∧ ∀ p, compose q es m ≠ Except.ok p) := by
  unfold compose
  by_cases hc : m < (promptText q []).length
  · rw [if_pos hc]
    refine ⟨⟨fun _ => hc, fun _ => rfl⟩, ⟨fun h => ?_, fun h => absurd hc (Nat.not_lt.mpr h)⟩, ?_⟩
    · exact absurd h (by simp [exceptIsOk])
    · intro e he
      injection he with he
      exact ⟨he.symm, fun p hp => Except.noConfusion hp⟩
  · rw [if_neg hc]
    refine ⟨⟨fun h => Except.noConfusion h, fun h => absurd h hc⟩,
      ⟨fun _ => Nat.not_lt.mp hc, fun _ => rfl⟩, ?_⟩
    intro e he
    exact Except.noConfusion he

/-! ## Helper lemmas about the retriever -/

theorem scoreGE_trans (a b c : Excerpt) (hab : scoreGE a b) (hbc : scoreGE b c) :
    scoreGE a c = true := by
  simp only [scoreGE, decide_eq_true_eq] at *
  exact le_trans hbc hab

theorem scoreGE_total (a b : Excerpt) : scoreGE a b || scoreGE b a := by
  simp only [scoreGE, Bool.or_eq_true, decide_eq_true_eq]
  exact le_total b.score a.score

theorem rankExcerpts_sorted (es : List Excerpt) :
    (rankExcerpts es).Pairwise (fun a b => b.score ≤ a.score) := by
  have h := List.sorted_mergeSort scoreGE_trans scoreGE_total es
  exact h.imp fun hab => by simpa [scoreGE] using hab

theorem wES_sorted : wES.Pairwise (fun a b => b.score ≤ a.score) := by
  simp [wES, wE1, wE2, wE3, List.pairwise_cons]
  norm_num

theorem retrieve_wES : retrieve (BackendResponse.results wES) 2 = Except.ok [wE1, wE2] := by
  have hb : List.Pairwise (fun a b => scoreGE a b = true) wES :=
    wES_sorted.imp fun hab => decide_eq_true hab
  show Except.ok ((wES.mergeSort scoreGE).take 2) = Except.ok [wE1, wE2]
  rw [List.mergeSort_of_sorted hb]
  rfl

/-! ## Claims about the Retriever -/

/-- Claim C2: `retrieve` returns at most `topK` excerpts ordered by
non-increasing relevance score; when the backend order is already
consistent with the ranking (so in particular for ties, which the stable
merge sort keeps in backend order), the result is exactly the first
`topK` backend excerpts unchanged — as in the scenario of three excerpts
scored 0.9, 0.7, 0.5 with `topK = 2`, witnessed below. -/
theorem retrieve_topK_sorted (es0 : List Excerpt) (k : Nat) (es : List Excerpt)
    (h : retrieve (BackendResponse.results es0) k = Except.ok es) :
    es.length ≤ k ∧ es.Pairwise (fun a b => b.score ≤ a.score) ∧
      (es0.Pairwise (fun a b => b.score ≤ a.score) → es = es0.take k) := by
  have hes : es = (rankExcerpts es0).take k := by
    unfold retrieve at h
    injection h with h
    exact h.symm
  subst hes
  refine ⟨?_, ?_, ?_⟩
  · rw [List.length_take]
    exact min_le_left _ _
  · exact List.Pairwise.sublist (List.take_sublist _ _) (rankExcerpts_sorted es0)
  · intro hsorted
    have hb : List.Pairwise (fun a b => scoreGE a b = true) es0 :=
      hsorted.imp fun hab => decide_eq_true hab
    unfold rankExcerpts
    rw [List.mergeSort_of_sorted hb]

/-- Claim C2, witnessed on the spec's scenario: the backend returns three
excerpts with scores 0.9, 0.7 and 0.5, and `topK = 2` yields exactly the
first two, in that order. -/
theorem retrieve_topK_sorted_witness :
    ([wE1, wE2] : List Excerpt).length ≤ 2 ∧
      ([wE1, wE2] : List Excerpt).Pairwise (fun a b => b.score ≤ a.score) ∧
      (wES.Pairwise (fun a b => b.score ≤ a.score) → [wE1, wE2] = wES.take 2) :=
  retrieve_topK_sorted wES 2 [wE1, wE2] retrieve_wES

/-- Claim C6: `retrieve` fails with `RetrievalUnavailable` exactly when
the backend index cannot be reached; an empty backend result is not an
error but a valid zero-length sequence; and `RetrievalUnavailable` is
the only error `retrieve` ever returns. -/
theorem retrieve_unavailable_iff (resp : BackendResponse) (k : Nat) :
    (retrieve resp k = Except.error PipelineError.retrievalUnavailable ↔
        resp = BackendResponse.unreachable) ∧
      retrieve (BackendResponse.results []) k = Except.ok [] ∧
      (∀ e, retrieve resp k = Except.error e → e = PipelineError.retrievalUnavailable) := by
  have hempty : retrieve (BackendResponse.results []) k = Except.ok [] := by
    simp [retrieve, rankExcerpts]
  cases resp with
  | unreachable =>
    refine ⟨⟨fun _ => rfl, fun _ => rfl⟩, hempty, ?_⟩
    intro e he
    injection he with he
    exact he.symm
  | results es =>
    refine ⟨⟨fun h => Except.noConfusion h, fun h => BackendResponse.noConfusion h⟩, hempty, ?_⟩
    intro e he
    exact Except.noConfusion he

/-! ## Helper lemmas about one conversational turn -/

theorem compose_ok_used (q : Query) (es : List Excerpt) (m : Nat) (p : Prompt)
    (h : compose q es m = Except.ok p) : p.usedExcerpts = fitExcerpts q m es := by
  unfold compose at h
  by_cases hc : m < (promptText q []).length
  · rw [if_pos hc] at h
    exact Except.noConfusion h
  · rw [if_neg hc] at h
    injection h with h
    subst h
    rfl

/-- The concrete input of one fully successful worked turn. -/
def wInp : TurnInput :=
  { query := wQ, topK := 2, maxSize := 1000, backend := .results wES,
    genResult := .success "Returns are accepted within 30 days.", backendId := "flan-xl" }

/-- The answer the worked turn produces. -/
def wAnswer : Answer :=
  { text := "Returns are accepted within 30 days.", excerpts := [wE1, wE2],
    backendId := "flan-xl" }

set_option maxRecDepth 4000 in
theorem runTurn_wInp : (runTurn wInp).1 = Except.ok wAnswer := by
  unfold runTurn
  rw [show retrieve wInp.backend wInp.topK = Except.ok [wE1, wE2] from retrieve_wES]
  rfl

/-! ## Claim about the Answer's excerpts -/

/-- Claim C4: the excerpts attached to the Answer of a turn are exactly
the excerpts the composed Prompt retained, and those were passed into
`compose` for that turn; in particular `Answer.excerpts` is an initial
segment, and hence a subset by identity, of the excerpts passed into
`compose` — no silent substitution. -/
theorem answer_excerpts_from_compose (inp : TurnInput) (es : List Excerpt) (a : Answer)
    (hr : retrieve inp.backend inp.topK = Except.ok es)
    (ha : (runTurn inp).1 = Except.ok a) :
    (∃ p, compose inp.query es inp.maxSize = Except.ok p ∧ a.excerpts = p.usedExcerpts) ∧
      a.excerpts <+: es ∧ a.excerpts ⊆ es := by
  cases hc : compose inp.query es inp.maxSize with
  | error e =>
    simp [runTurn, hr, hc] at ha
  | ok p =>
    simp [runTurn, hr, hc] at ha
    cases hg : generate p inp.backendId inp.genResult with
    | error e =>
      simp [hg] at ha
    | ok a2 =>
      simp [hg] at ha
      subst ha
      have hused : a2.excerpts = p.usedExcerpts := by
        cases hgen : inp.genResult with
        | timeout => rw [hgen] at hg; exact Except.noConfusion hg
        | rejected => rw [hgen] at hg; exact Except.noConfusion hg
        | success t =>
          rw [hgen] at hg
          injection hg with hg
          subst hg
          rfl
      have hpre : a2.excerpts <+: es := by
        rw [hused, compose_ok_used inp.query es inp.maxSize p hc]
        exact fitGo_isPre inp.query inp.maxSize es es.length
      exact ⟨⟨p, rfl, hused⟩, hpre, hpre.sublist.subset⟩

/-- Claim C4, witnessed on the worked turn: the answer cites exactly the
two excerpts that fed the composer. -/
theorem answer_excerpts_from_compose_witness :
    (∃ p, compose wInp.query [wE1, wE2] wInp.maxSize = Except.ok p ∧
        wAnswer.excerpts = p.usedExcerpts) ∧
      wAnswer.excerpts <+: [wE1, wE2] ∧ wAnswer.excerpts ⊆ [wE1, wE2] :=
  answer_excerpts_from_compose wInp [wE1, wE2] wAnswer retrieve_wES runTurn_wInp

/-! ## Claim about the turn state machine -/

theorem step_char (s t : TurnState) : Step s t ↔
    s = TurnState.idle ∧ t = TurnState.retrieving ∨
      s = TurnState.retrieving ∧ t = TurnState.composing ∨
      s = TurnState.composing ∧ t = TurnState.generating ∨
      s = TurnState.generating ∧ t = TurnState.done ∨
      (s = TurnState.retrieving ∨ s = TurnState.composing ∨ s = TurnState.generating) ∧
        t = TurnState.failed := by
  constructor
  · intro h
    cases h <;> simp
  · intro h
    rcases h with ⟨rfl, rfl⟩ | ⟨rfl, rfl⟩ | ⟨rfl, rfl⟩ | ⟨rfl, rfl⟩ | ⟨hs, rfl⟩
    · exact Step.start
    · exact Step.retrieved
    · exact Step.composed
    · exact Step.generated
    · rcases hs with rfl | rfl | rfl
      · exact Step.retrieveFailed
      · exact Step.composeFailed
      · exact Step.generateFailed

/-- Claim C5: every execution of a turn yields a state trace that begins
at Idle, follows the transition relation without skipping (each
transition fires only on completion of the prior stage), ends at Done
exactly on the success path Idle, Retrieving, Composing, Generating,
Done, ends at the terminal Failed state on every error, Failed is
reachable in one step from each non-Idle non-terminal state, and no
transitions other than the listed ones exist. -/
theorem turn_state_machine (inp : TurnInput) :
    List.Chain' Step (runTurn inp).2 ∧
      (runTurn inp).2.head? = some TurnState.idle ∧
      (∀ a, (runTurn inp).1 = Except.ok a →
        (runTurn inp).2 = [TurnState.idle, TurnState.retrieving, TurnState.composing,
          TurnState.generating, TurnState.done]) ∧
      (∀ e, (runTurn inp).1 = Except.error e →
        (runTurn inp).2.getLast? = some TurnState.failed) ∧
      (∀ s t, Step s t ↔
        s = TurnState.idle ∧ t = TurnState.retrieving ∨
          s = TurnState.retrieving ∧ t = TurnState.composing ∨
          s = TurnState.composing ∧ t = TurnState.generating ∨
          s = TurnState.generating ∧ t = TurnState.done ∨
          (s = TurnState.retrieving ∨ s = TurnState.composing ∨ s = TurnState.generating) ∧
            t = TurnState.failed) := by
  cases hrt : retrieve inp.backend inp.topK with
  | error e =>
    have h2 : runTurn inp =
        (Except.error ⟨Stage.retrieving, e⟩,
          [TurnState.idle, TurnState.retrieving, TurnState.failed]) := by
      simp [runTurn, hrt]
    rw [h2]
    refine ⟨?_, rfl, ?_, ?_, step_char⟩
    · exact List.Chain.cons Step.start (List.Chain.cons Step.retrieveFailed List.Chain.nil)
    · intro a ha
      exact Except.noConfusion ha
    · intro e2 _
      rfl
  | ok es =>
    cases hc : compose inp.query es inp.maxSize with
    | error e =>
      have h2 : runTurn inp =
          (Except.error ⟨Stage.composing, e⟩,
            [TurnState.idle, TurnState.retrieving, TurnState.composing, TurnState.failed]) := by
        simp [runTurn, hrt, hc]
      rw [h2]
      refine ⟨?_, rfl, ?_, ?_, step_char⟩
      · exact List.Chain.cons Step.start (List.Chain.cons Step.retrieved
          (List.Chain.cons Step.composeFailed List.Chain.nil))
      · intro a ha
        exact Except.noConfusion ha
      · intro e2 _
        rfl
    | ok p =>
      cases hg : generate p inp.backendId inp.genResult with
      | error e =>
        have h2 : runTurn inp =
            (Except.error ⟨Stage.generating, e⟩,
              [TurnState.idle, TurnState.retrieving, TurnState.composing,
                TurnState.generating, TurnState.failed]) := by
          simp [runTurn, hrt, hc, hg]
        rw [h2]
        refine ⟨?_, rfl, ?_, ?_, step_char⟩
        · exact List.Chain.cons Step.start (List.Chain.cons Step.retrieved
            (List.Chain.cons Step.composed
              (List.Chain.cons Step.generateFailed List.Chain.nil)))
        · intro a ha
          exact Except.noConfusion ha
        · intro e2 _
          rfl
      | ok a =>
        have h2 : runTurn inp =
            (Except.ok a,
              [TurnState.idle, TurnState.retrieving, TurnState.composing,
                TurnState.generating, TurnState.done]) := by
          simp [runTurn, hrt, hc, hg]
        rw [h2]
        refine ⟨?_, rfl, ?_, ?_, step_char⟩
        · exact List.Chain.cons Step.start (List.Chain.cons Step.retrieved
            (List.Chain.cons Step.composed
              (List.Chain.cons Step.generated List.Chain.nil)))
        · intro a2 _
          rfl
        · intro e2 he
          exact Except.noConfusion he

/-! ## Claim about the retry policy -/

theorem runTurn_timeout_of_ok (inp : TurnInput) (t : String) (a : Answer)
    (h : (runTurn (setGen inp (GenOutcome.success t))).1 = Except.ok a) :
    (runTurn (setGen inp GenOutcome.timeout)).1 =
      Except.error ⟨Stage.generating, PipelineError.backendTimeout⟩ := by
  cases hrt : retrieve inp.backend inp.topK with
  | error e => simp [runTurn, setGen, hrt] at h
  | ok es =>
    cases hc : compose inp.query es inp.maxSize with
    | error e => simp [runTurn, setGen, hrt, hc] at h
    | ok p => simp [runTurn, setGen, hrt, hc, generate]

/-- Claim C7: only `BackendTimeout` is retried: any other error
terminates the turn after the one attempt, surfaced with its originating
stage; and when the backend times out on the first two attempts and
succeeds on the third within the caller's limit, the retry wrapper
returns the successful Answer after exactly 3 attempts. -/
theorem retry_policy (inp : TurnInput) (outcomes : Nat → GenOutcome) (limit : Nat)
    (e : StageError) (a : Answer) (t : String) :
    ((runTurn (setGen inp (outcomes 0))).1 = Except.error e →
        e.err ≠ PipelineError.backendTimeout →
        retryWithBackoff inp outcomes limit = (Except.error e, 1)) ∧
      (outcomes 0 = GenOutcome.timeout → outcomes 1 = GenOutcome.timeout →
        outcomes 2 = GenOutcome.success t →
        (runTurn (setGen inp (GenOutcome.success t))).1 = Except.ok a →
        2 ≤ limit →
        retryWithBackoff inp outcomes limit = (Except.ok a, 3)) := by
  constructor
  · intro he hne
    unfold retryWithBackoff
    cases limit with
    | zero => simp [retryGo, he]
    | succ l => simp [retryGo, he, hne]
  · intro h0 h1 h2 hok hlim
    have htime := runTurn_timeout_of_ok inp t a hok
    obtain ⟨l, rfl⟩ : ∃ l, limit = l + 2 := ⟨limit - 2, by omega⟩
    unfold retryWithBackoff
    cases l with
    | zero => simp [retryGo, h0, h1, h2, htime, hok]
    | succ l2 => simp [retryGo, h0, h1, h2, htime, hok]

/-- The backend behaviour of the worked retry scenario: timeouts on
attempts 0 and 1, success on attempt 2. -/
def wOutcomes : Nat → GenOutcome := fun k =>
  if k < 2 then GenOutcome.timeout
  else GenOutcome.success "Returns are accepted within 30 days."

/-- Claim C7, witnessed on the spec's scenario: two timeouts, then
success; the wrapper returns the Answer and the attempt count is 3. -/
theorem retry_policy_witness :
    retryWithBackoff wInp wOutcomes 5 = (Except.ok wAnswer, 3) :=
  (retry_policy wInp wOutcomes 5 ⟨Stage.generating, PipelineError.backendRejected⟩ wAnswer
    "Returns are accepted within 30 days.").2 rfl rfl rfl runTurn_wInp (by omega)

/-! ## Claim about the conversation history -/

theorem stepConversation_pre (c : Conversation) (inp : TurnInput) :
    c.history <+: (stepConversation c inp).history := by
  unfold stepConversation
  cases h : (runTurn inp).1 with
  | ok a => exact ⟨[(inp.query, a)], rfl⟩
  | error e => exact ⟨[], by simp⟩

theorem runConversation_pre (c : Conversation) (inps : List TurnInput) :
    c.history <+: (runConversation c inps).history := by
  induction inps generalizing c with
  | nil => exact ⟨[], by simp [runConversation]⟩
  | cons i rest ih => exact (stepConversation_pre c i).trans (ih (stepConversation c i))

theorem runConversation_length (c : Conversation) (inps : List TurnInput) :
    (runConversation c inps).history.length =
      c.history.length + (inps.filter fun i => exceptIsOk (runTurn i).1).length := by
  induction inps generalizing c with
  | nil => simp [runConversation]
  | cons i rest ih =>
    have hstep : runConversation c (i :: rest) = runConversation (stepConversation c i) rest := rfl
    rw [hstep, ih]
    cases h : (runTurn i).1 with
    | ok a =>
      have h1 : stepConversation c i = appendTurn c i.query a := by simp [stepConversation, h]
      have h2 : exceptIsOk (runTurn i).1 = true := by rw [h]; rfl
      simp [h1, appendTurn, List.filter_cons, h2]
      omega
    | error e =>
      have h1 : stepConversation c i = c := by simp [stepConversation, h]
      have h2 : exceptIsOk (runTurn i).1 = false := by rw [h]; rfl
      simp [h1, List.filter_cons, h2]

/-- Claim C8: the conversation history is append-only: a turn never
removes or modifies an existing entry (the old history stays an initial
segment), a completed turn appends exactly its one query/answer pair, a
failed turn appends nothing, and after running a sequence of turns the
history has grown by exactly the number of completed turns, in turn
order. -/
theorem history_append_only (c : Conversation) (inp : TurnInput) (inps : List TurnInput) :
    c.history <+: (stepConversation c inp).history ∧
      (∀ a, (runTurn inp).1 = Except.ok a →
        (stepConversation c inp).history = c.history ++ [(inp.query, a)]) ∧
      (∀ e, (runTurn inp).1 = Except.error e → stepConversation c inp = c) ∧
      c.history <+: (runConversation c inps).history ∧
      (runConversation c inps).history.length =
        c.history.length + (inps.filter fun i => exceptIsOk (runTurn i).1).length := by
  refine ⟨stepConversation_pre c inp, ?_, ?_, runConversation_pre c inps,
    runConversation_length c inps⟩
  · intro a ha
    simp [stepConversation, ha, appendTurn]
  · intro e he
    simp [stepConversation, he]

/-! ## Claims about the notebook's endpoint dispatch cell -/

/-- Claim C9 counterexample: a model identifier may contain both
patterns; `"flan-t5-xl-flan-t5-xxl"` contains `"flan-t5-xxl"`, yet the
dispatch takes the first branch and sets the XL variable, leaving the
XXL variable unset — against the claim's universal clause that any
identifier containing `"flan-t5-xxl"` gets the XXL variable set and the
XL one left unset. -/
theorem dispatch_c9_counterexample :
    reSearch "flan-t5-xxl" "flan-t5-xl-flan-t5-xxl" = true ∧
      (setEndpointEnv "flan-t5-xl-flan-t5-xxl" "ep-1" false false emptyEnv).1.flanXxlEndpoint =
        none ∧
      (setEndpointEnv "flan-t5-xl-flan-t5-xxl" "ep-1" false false emptyEnv).1.flanXlEndpoint =
        some "ep-1" :=
  ⟨rfl, rfl, rfl⟩

/-- Claim C9 (amended): the pattern `"flan-t5-xl"` is not a substring of
`"huggingface-text2text-flan-t5-xxl"`; for a model identifier containing
`"flan-t5-xxl"` and not containing `"flan-t5-xl"` (as is the case for
the JumpStart identifier) the dispatch sets only the XXL variable; for
one containing `"flan-t5-xl"` it sets only the XL variable; and the cell
never sets both endpoint variables. -/
theorem dispatch_exclusive (modelId ep : String) (o a : Bool) :
    reSearch "flan-t5-xl" "huggingface-text2text-flan-t5-xxl" = false ∧
      (reSearch "flan-t5-xxl" modelId = true → reSearch "flan-t5-xl" modelId = false →
        (setEndpointEnv modelId ep o a emptyEnv).1 =
          { flanXlEndpoint := none, flanXxlEndpoint := some ep }) ∧
      (reSearch "flan-t5-xl" modelId = true →
        (setEndpointEnv modelId ep o a emptyEnv).1 =
          { flanXlEndpoint := some ep, flanXxlEndpoint := none }) ∧
      ((setEndpointEnv modelId ep o a emptyEnv).1.flanXlEndpoint = none ∨
        (setEndpointEnv modelId ep o a emptyEnv).1.flanXxlEndpoint = none) := by
  refine ⟨rfl, ?_, ?_, ?_⟩
  · intro hxxl hxl
    simp [setEndpointEnv, hxl, hxxl, emptyEnv]
  · intro hxl
    simp [setEndpointEnv, hxl, emptyEnv]
  · by_cases hxl : reSearch "flan-t5-xl" modelId
    · simp [setEndpointEnv, hxl, emptyEnv]
    · by_cases hxxl : reSearch "flan-t5-xxl" modelId
      · simp [setEndpointEnv, hxl, hxxl, emptyEnv]
      · by_cases hk : (o || a : Bool)
        · simp [setEndpointEnv, hxl, hxxl, hk, emptyEnv]
        · simp [setEndpointEnv, hxl, hxxl, hk, emptyEnv]

/-- Claim C9 (amended), witnessed on the real JumpStart identifier for
the XXL model. -/
theorem dispatch_exclusive_witness :
    (setEndpointEnv "huggingface-text2text-flan-t5-xxl" "ep-xxl" false false emptyEnv).1 =
      { flanXlEndpoint := none, flanXxlEndpoint := some "ep-xxl" } :=
  (dispatch_exclusive "huggingface-text2text-flan-t5-xxl" "ep-xxl" false false).2.1 rfl rfl

/-- Claim C10: an empty string at the Model ID prompt makes `model_id`
default to `"huggingface-text2text-flan-t5-xl"`, and the dispatch cell
then sets the FLAN XL endpoint variable to the deployed endpoint name,
leaving the XXL one unset. -/
theorem default_model_sets_xl (ep : String) (o a : Bool) :
    chooseModelId "" = defaultModelId ∧
      (setEndpointEnv (chooseModelId "") ep o a emptyEnv).1 =
        { flanXlEndpoint := some ep, flanXxlEndpoint := none } := by
  refine ⟨rfl, ?_⟩
  have hxl : reSearch "flan-t5-xl" (chooseModelId "") = true := rfl
  simp [setEndpointEnv, hxl, emptyEnv]

end KendraRag
